import Mathlib

/-!
Verification of the generation pipeline of `app/api/ai_services.py`
(class `AIService`): email, poster and invitation generation with tiered
provider fallback.

Embedding conventions:
* Python dicts returned by the pipelines are association lists
  `List (String × PyVal)`; a key is "present" when `List.lookup` finds it.
* Python strings are Lean `String`s; the library routines `str.strip`,
  `str.split`, `str.join`, `str.title`, `random.choice` are modelled by the
  `py...` definitions below, each faithful to the Python semantics.
* Images are modelled by their pixel dimensions (`Img`); every PIL filter,
  enhancement and in-place drawing operation used by the source preserves
  dimensions, `Image.resize`/`Image.new` set them.  Base64/PNG encoding is
  abstracted as the identity on this model (`PyVal.vimg`); a QR code image
  is abstracted by the payload string it encodes (`PyVal.vqr`).
* External providers are abstracted as parameters: an `Except Unit _`
  outcome for a call through the Groq client (`.error` = the call raised),
  an `Option Img` for an image adapter outcome, and for the HTTP adapters a
  response stream `Nat → HttpResp` from which each `requests.post` consumes
  one response, together with a trace of requests made and seconds slept.
* Where the Python class defines the same method twice, the later
  definition shadows the earlier one for every caller; the unsuffixed Lean
  name embeds the later (effective) definition, and the earlier
  `generate_poster` (DALL-E-3 first) is embedded as
  `generate_poster_shadowed`.
-/

/-- Model of Python `str.strip()` on the character list: drop whitespace
from both ends. -/
def stripChars (l : List Char) : List Char :=
  ((l.dropWhile Char.isWhitespace).reverse.dropWhile Char.isWhitespace).reverse

/-- Python `str.strip()`. -/
def pyStrip (s : String) : String := String.mk (stripChars s.data)

/-- Helper for `str.split('\n')`: split at every newline, keeping empty
pieces, accumulating the current piece in reverse. -/
def splitLinesAux : List Char → List Char → List (List Char)
  | [], acc => [acc.reverse]
  | c :: cs, acc =>
    if c = '\n' then acc.reverse :: splitLinesAux cs []
    else splitLinesAux cs (c :: acc)

/-- Python `str.split('\n')`. -/
def pySplitLines (s : String) : List String :=
  (splitLinesAux s.data []).map String.mk

/-- Python `sep.join(pieces)`. -/
def pyJoin (sep : String) : List String → String
  | [] => ""
  | [x] => x
  | x :: y :: ys => x ++ sep ++ pyJoin sep (y :: ys)

/-- Helper for no-argument `str.split()`: split into maximal runs of
non-whitespace characters, dropping all empties. -/
def wordsAux (acc : List Char) : List Char → List (List Char)
  | [] => if acc = [] then [] else [acc.reverse]
  | c :: cs =>
    if c.isWhitespace then
      if acc = [] then wordsAux [] cs else acc.reverse :: wordsAux [] cs
    else wordsAux (c :: acc) cs

/-- Join a word list with single spaces (helper for `' '.join(s.split())`). -/
def joinSpace : List (List Char) → List Char
  | [] => []
  | [w] => w
  | w :: v :: ws => w ++ ' ' :: joinSpace (v :: ws)

/-- Python `' '.join(s.split())`: collapse all whitespace runs to single
spaces and trim the ends. -/
def pyCollapseWs (s : String) : String :=
  String.mk (joinSpace (wordsAux [] s.data))

/-- Helper for Python `str.title()`: uppercase a letter that starts a word,
lowercase the rest, tracking whether the previous character was a letter. -/
def titleAux : Bool → List Char → List Char
  | _, [] => []
  | prev, c :: cs =>
    if c.isAlpha then (if prev then c.toLower else c.toUpper) :: titleAux true cs
    else c :: titleAux false cs

/-- Python `str.title()`. -/
def pyTitle (s : String) : String := String.mk (titleAux false s.data)

/-- Python `str.lower()`: lowercase character by character. -/
def pyLower (s : String) : String := String.mk (s.data.map Char.toLower)

/-- Python `str.upper()`: uppercase character by character. -/
def pyUpper (s : String) : String := String.mk (s.data.map Char.toUpper)

/-- Python truthiness of an optional string (`data.get(k)` used in a
boolean position): `None` and the empty string are falsy. -/
def pyTruthyStr : Option String → Bool
  | none => false
  | some s => s ≠ ""

/-- `data.get(key, default)` on an optional field followed by f-string
interpolation.  The schema's `.dict()` always includes every key, so
`.get` returns the stored value — possibly `None`, which an f-string
renders as the four letters "None"; the `.get` default (recorded here as
`dflt` for reference) is only reachable for a caller that omits the key,
which the request boundary never does. -/
def pyGetRender (o : Option String) (_dflt : String) : String :=
  match o with
  | some s => s
  | none => "None"

/-- Model of `random.choice(l)`: the random draw is supplied externally as
an index `pick` (the spec requires randomness to be injectable). -/
def pyChoice (l : List String) (pick : Nat) : String :=
  l.getD (pick % l.length) ""

/-- An image, modelled by its pixel dimensions; pixel content is abstracted
(every filter/enhancement/drawing call in the source is dimension
preserving, `resize`/`Image.new` set the dimensions). -/
structure Img where
  width : Nat
  height : Nat
deriving Repr, DecidableEq

/-- A value stored in a result dict: a string, Python `None`, a base64 data
URL of an image of the given dimensions, a base64 data URL of a QR code
image encoding the given payload, or a value whose content is not modelled
(the `file_size` display string). -/
inductive PyVal where
  | vstr (s : String)
  | vnone
  | vimg (img : Img)
  | vqr (payload : String)
  | vother
deriving Repr, DecidableEq

/-- A Python dict result envelope. -/
abbrev PyDict := List (String × PyVal)

/-- An email generation request (`EmailGenerationRequest.dict()`); optional
fields are `None` when absent. -/
structure EmailRequest where
  event_name : String
  event_type : String
  date : String
  time : String
  venue : String
  target_audience : String
  tone : String
  key_points : List String
  contact_info : Option String
  organizer_name : Option String
deriving Repr, DecidableEq

/-- A poster generation request as read by `generate_poster` and the
prompt builders; keys the schema never supplies are read with
`data.get(k, default)`, so they are optional here (`crisp_mode` is the
boolean value of `data.get('crisp_mode', False)`). -/
structure PosterRequest where
  event_name : String
  event_type : String
  date : String
  time : String
  venue : String
  theme : String
  crisp_mode : Bool
  realism : Option String
  camera_style : Option String
  material_accent : Option String
deriving Repr, DecidableEq

/-- An invitation generation request as read by `generate_invitation`;
fields read via `data.get` are optional. -/
structure InvitationRequest where
  event_name : String
  event_type : String
  date : String
  time : String
  venue : String
  rsvp_deadline : Option String
  rsvp_email : Option String
  dress_code : Option String
  special_instructions : Option String
  organizer_name : Option String
  tone : Option String
  theme : Option String
  layout_variant : Option String
  crisp_mode : Bool
deriving Repr, DecidableEq

/-- `_generate_professional_subject`: the per-event-type subject template
lists (each template is an f-string over the event name). -/
def subject_templates (n : String) : List (String × List String) :=
  [("workshop",
     ["Master New Skills: " ++ n ++ " Workshop",
      "Hands-On Learning: " ++ n ++ " - Register Now!",
      "Expert-Led Workshop: " ++ n ++ " - Limited Spots"]),
   ("conference",
     ["Don\x27t Miss: " ++ n ++ " Conference 2024",
      "Industry Insights: " ++ n ++ " - Secure Your Seat",
      "Network & Learn: " ++ n ++ " Conference Invitation"]),
   ("social",
     ["You\x27re Invited: " ++ n ++ " Social Gathering",
      "Join the Celebration: " ++ n ++ " - RSVP Today!",
      "Connect & Celebrate: " ++ n ++ " Event"])]

/-- Default subject templates used when the event type has no entry. -/
def subject_default_templates (n : String) : List String :=
  ["Important: " ++ n ++ " - Your Invitation",
   "Don\x27t Miss Out: " ++ n ++ " Event",
   "Exclusive Invitation: " ++ n]

/-- `_generate_professional_subject`: pick one template for the event type
(`random.choice` modelled by the injected index `pick`). -/
def generate_professional_subject (data : EmailRequest) (pick : Nat) : String :=
  pyChoice ((List.lookup data.event_type (subject_templates data.event_name)).getD
    (subject_default_templates data.event_name)) pick

/-- Python `line[0].upper() + line[1:]` applied when `line[0].islower()`. -/
def pyCapitalizeFirst (line : String) : String :=
  match line.data with
  | [] => line
  | c :: cs => if c.isLower then String.mk (c.toUpper :: cs) else line

/-- `_enhance_email_formatting`: strip each line, drop empty lines,
capitalize the first letter of each kept line, join with blank lines. -/
def enhance_email_formatting (body : String) : String :=
  let ls := ((pySplitLines body).map pyStrip).filter (fun l => l ≠ "")
  pyJoin "\n\n" (ls.map pyCapitalizeFirst)

/-- `_professional_email_template`: the fixed prose template filled from
the request. -/
def professional_email_template (data : EmailRequest) : String :=
  let organizer := pyGetRender data.organizer_name "Event Organizing Team"
  let contact := data.contact_info
  let keyPoints :=
    if data.key_points ≠ [] then
      pyJoin "\n" (data.key_points.map (fun point => "• " ++ point))
    else "• Expert-led sessions and workshops\n• Valuable networking opportunities  \n• Cutting-edge insights and knowledge\n• Practical skills and takeaways"
  "\nDear Attendee,\n\nYou are cordially invited to an exceptional event that promises valuable insights and memorable experiences.\n\n**EVENT DETAILS**\n🎯 Event: "
    ++ data.event_name
    ++ "\n📅 Date: " ++ data.date
    ++ "\n⏰ Time: " ++ data.time
    ++ "\n📍 Venue: " ++ data.venue
    ++ "\n🎪 Type: " ++ pyTitle data.event_type
    ++ "\n\n**ABOUT THIS EVENT**\nThis " ++ data.event_type
    ++ " is specially curated for " ++ data.target_audience
    ++ " and offers a unique opportunity for growth, networking, and professional development.\n\n**KEY HIGHLIGHTS**\n"
    ++ keyPoints
    ++ "\n\n**WHY ATTEND?**\n- Gain valuable knowledge and skills\n- Network with peers and experts\n- Enhance your professional profile\n- Discover new opportunities\n\n**REGISTRATION**\nPlease confirm your attendance at your earliest convenience to secure your spot.\n\nWe are committed to delivering an exceptional experience and look forward to welcoming you to what promises to be an impactful event.\n\nBest regards,\n\n"
    ++ organizer ++ "\n" ++ (if pyTruthyStr contact then contact.getD "" else "")
    ++ "\n\n---\nThis is an automated invitation. For any inquiries, please respond to this email.\n"

/-- `_professional_fallback_email_generation`. -/
def professional_fallback_email_generation (data : EmailRequest) (pick : Nat) : PyDict :=
  [("subject", PyVal.vstr (generate_professional_subject data pick)),
   ("body", PyVal.vstr (professional_email_template data)),
   ("status", PyVal.vstr "success"),
   ("model_used", PyVal.vstr "professional-fallback-template")]

/-- The loop state of `_parse_professional_email_response`. -/
structure ParseSt where
  subject : String
  bodyLines : List String
  inBody : Bool

/-- One iteration of the line loop of `_parse_professional_email_response`. -/
def parse_email_line (st : ParseSt) (rawLine : String) : ParseSt :=
  let line := pyStrip rawLine
  if line.startsWith "SUBJECT:" ∧ st.subject = "" then
    { st with subject := pyStrip (((pyStrip (line.replace "SUBJECT:" "")).splitOn "BODY:").headD "") }
  else if line.startsWith "BODY:" then
    let bodyContent := pyStrip (line.replace "BODY:" "")
    { st with
      inBody := true
      bodyLines := if bodyContent ≠ "" then st.bodyLines ++ [bodyContent] else st.bodyLines }
  else if st.inBody ∧ line ≠ "" then
    { st with bodyLines := st.bodyLines ++ [line] }
  else st

/-- The body assembled from the line loop of
`_parse_professional_email_response`: the collected BODY lines joined with
newlines, or the whole raw response when none were collected. -/
def email_raw_body (response : String) : String :=
  let st := (pySplitLines response).foldl parse_email_line ⟨"", [], false⟩
  if st.bodyLines ≠ [] then pyJoin "\n" st.bodyLines else response

/-- The body computed by `_parse_professional_email_response` just before
`_enhance_email_formatting` is applied: the raw body, or (when blank) the
template. -/
def parsed_email_body_pre (response : String) (data : EmailRequest) : String :=
  if pyStrip (email_raw_body response) = "" then professional_email_template data
  else email_raw_body response

/-- The subject computed by `_parse_professional_email_response`: the
parsed SUBJECT line, or the generated fallback subject when empty. -/
def parsed_email_subject (response : String) (data : EmailRequest) (pick : Nat) : String :=
  let st := (pySplitLines response).foldl parse_email_line ⟨"", [], false⟩
  if st.subject = "" then generate_professional_subject data pick else st.subject

/-- `_parse_professional_email_response`: assemble the result dict. -/
def parse_professional_email_response (response : String) (data : EmailRequest)
    (pick : Nat) : PyDict :=
  [("subject", PyVal.vstr (parsed_email_subject response data pick)),
   ("body", PyVal.vstr (enhance_email_formatting (parsed_email_body_pre response data))),
   ("status", PyVal.vstr "success"),
   ("model_used", PyVal.vstr "llama-3.1-70b-professional")]

/-- `generate_email_content`: no Groq client, or a raising provider call,
falls back to the template generation; otherwise the provider response is
parsed.  `textOutcome` abstracts the chat-completion call. -/
def generate_email_content (hasClient : Bool) (textOutcome : Except Unit String)
    (data : EmailRequest) (pick : Nat) : PyDict :=
  if !hasClient then professional_fallback_email_generation data pick
  else
    match textOutcome with
    | Except.ok response => parse_professional_email_response response data pick
    | Except.error _ => professional_fallback_email_generation data pick

/-- The `professional` fragment of the premium theme table, also the
default for unknown themes (`theme_prompts.get(..., theme_prompts["professional"])`). -/
def premium_theme_professional : String :=
  "professional corporate event poster excellence, business conference premium design, clean modern layout with perfect alignment,
  professional stock photography with diverse business people, sophisticated typography with multiple weights,
  brand-aligned design system, executive luxury event, ultra detailed, 8k resolution, by Pentagram design studio,
  perfect spacing, corporate elegance"

/-- The theme table of `_build_premium_poster_prompt` (effective
definition, lines 1357-1465). -/
def premium_theme_prompts : List (String × String) :=
  [("cyberpunk",
    "cyberpunk event poster masterpiece, neon noir aesthetic, futuristic megacityscape with holographic advertisements,
  vibrant neon color palette (electric blue, hot pink, lime green, purple), detailed cyberpunk architecture with Japanese influences,
  atmospheric lighting with volumetric fog, cinematic composition, 8k resolution, ultra detailed, trending on artstation,
  professional graphic design, by Syd Mead and Josan Gonzalez, sharp focus, perfect lighting"),
   ("elegant",
    "elegant luxury event poster, gold foil accents and embossing, marble and crystal textures with subtle reflections,
  sophisticated modern typography, minimalist luxury design with ample white space, black and gold color scheme with deep navy,
  professional corporate design, high-end exclusive event, award-winning design, ultra detailed, 8k resolution,
  by Paula Scher, clean composition, premium finish"),
   ("minimalistic",
    "minimalist professional poster masterpiece, Swiss International Style design, clean elegant typography with perfect kerning,
  ample intelligent white space, geometric elements with golden ratio proportions, modern sophisticated aesthetic,
  professional grid-based layout, refined color palette with single accent color, 8k resolution, ultra sharp,
  by Massimo Vignelli, perfect balance, timeless design"),
   ("vibrant",
    "vibrant energetic event poster masterpiece, bold saturated colors with complementary harmony, dynamic asymmetric composition,
  festival atmosphere with joyful celebration energy, mixed media collage with texture overlays, professional illustration style,
  eye-catching design with strong visual hierarchy, 8k resolution, ultra detailed, by Malika Favre, pop art influences,
  perfect contrast and balance"),
   ("professional", premium_theme_professional),
   ("nature",
    "organic natural event poster masterpiece, eco-friendly sustainable design, detailed botanical illustrations with leaf patterns,
  earthy green color palette with natural tones, sustainable design with recycled paper texture, environmental conservation theme,
  professional organic layout, 8k resolution, by Brian Steely, natural lighting, serene composition"),
   ("artistic",
    "artistic creative event poster excellence, painterly style with visible brush strokes, abstract geometric elements with meaning,
  mixed media collage with texture layers, textured background with subtle patterns, creative dynamic composition, gallery exhibition style,
  professional art direction, 8k resolution, by James Jean, artistic integrity, emotional impact"),
   ("tech",
    "modern tech event poster masterpiece, futuristic innovative design, digital circuit board patterns with glowing connections,
  glowing neon effects with light trails, innovative technology theme with data visualization elements,
  professional tech industry design, 8k resolution, by Ash Thorp, cybernetic aesthetic, forward-thinking")]

/-- `theme_prompts.get(data['theme'].lower(), theme_prompts["professional"])`. -/
def premium_theme_desc (theme : String) : String :=
  (List.lookup (pyLower theme) premium_theme_prompts).getD premium_theme_professional

/-- The event-type table of `_build_premium_poster_prompt`. -/
def premium_event_prompts : List (String × String) :=
  [("workshop", "educational workshop poster, creative collaborative learning environment, interactive hands-on session design, skill development focus"),
   ("conference", "professional conference poster premium, networking business event, multiple speaker sessions with diverse topics, industry gathering excellence"),
   ("social", "social event poster excellence, community gathering celebration, fun engaging atmosphere with connection focus, memorable experience design"),
   ("sports", "sports event poster dynamic, athletic competition energy, active lifestyle promotion, team spirit and sportsmanship celebration"),
   ("cultural", "cultural festival poster vibrant, traditional artistic elements with modern twist, diverse cultural celebration, heritage and innovation fusion"),
   ("tech", "technology conference poster innovative, digital transformation summit, cutting-edge innovation showcase, future trends exploration"),
   ("seminar", "educational seminar poster professional, academic knowledge sharing event, professional development focus, expert-led learning experience"),
   ("competition", "competitive event poster exciting, challenge and achievement celebration, skill demonstration platform, excellence recognition design")]

/-- `event_prompts.get(data['event_type'].lower(), "professional premium event")`. -/
def premium_event_desc (event_type : String) : String :=
  (List.lookup (pyLower event_type) premium_event_prompts).getD "professional premium event"

/-- The `high` realism fragment, also the dict-get default (the source
repeats the identical literal as the default). -/
def premium_realism_high : String :=
  "photorealistic, physically based rendering, natural materials, soft global illumination, realistic shadows, lens-based bokeh, depth of field, subtle film grain, calibrated white balance"

/-- The realism lookup of `_build_premium_poster_prompt`. -/
def premium_realism_desc (r : String) : String :=
  (List.lookup (pyLower r)
    [("high", premium_realism_high),
     ("medium", "highly realistic, soft lighting, subtle reflections, balanced contrast, gentle depth of field"),
     ("low", "stylized realism, clean lighting, moderate texture detail")]).getD premium_realism_high

/-- The `prime` camera fragment, also the dict-get default. -/
def premium_camera_prime : String :=
  "shot on 50mm prime lens, f/2.8 aperture, cinematic color grading"

/-- The camera-style lookup of `_build_premium_poster_prompt`. -/
def premium_camera_desc (c : String) : String :=
  (List.lookup (pyLower c)
    [("prime", premium_camera_prime),
     ("wide", "shot on 24mm wide-angle lens, dramatic perspective, f/4.0"),
     ("telephoto", "shot on 85mm lens, compressed perspective, creamy bokeh, f/2.0")]).getD premium_camera_prime

/-- The material-accent lookup of `_build_premium_poster_prompt`. -/
def premium_material_desc (m : String) : String :=
  (List.lookup (pyLower m)
    [("paper", "fine paper fibers micro-texture, matte finish"),
     ("metallic", "subtle metallic sheen, brushed metal micro-texture"),
     ("glass", "subsurface scattering in glass, faint reflections"),
     ("fabric", "woven fabric micro-texture, tactile surface"),
     ("none", "")]).getD ""

/-- `_build_premium_poster_prompt` (effective definition, lines
1357-1465): compose the fragments into the f-string and collapse
whitespace with `' '.join(prompt.split())`. -/
def build_premium_poster_prompt (data : PosterRequest) : String :=
  let theme_desc := premium_theme_desc data.theme
  let event_desc := premium_event_desc data.event_type
  let realism_desc := premium_realism_desc (data.realism.getD "high")
  let camera_desc := premium_camera_desc (data.camera_style.getD "prime")
  let material_desc := premium_material_desc (data.material_accent.getD "none")
  pyCollapseWs ("\n        Professional event poster design for \"" ++ data.event_name
    ++ "\",\n        " ++ event_desc ++ ", " ++ theme_desc ++ ", " ++ realism_desc ++ ", "
    ++ camera_desc ++ ", " ++ material_desc
    ++ ",\n        award-winning design, ultra detailed, professional graphic design excellence,\n        perfect visual hierarchy and composition, attractive compelling imagery, no text,\n        trending on artstation and behance, 8k resolution, 4k quality, sharp focus,\n        professional photography, cinematic lighting, perfect proportions\n        ")

/-- The `professional` fragment of the DALL-E 3 theme table, also the
default for unknown themes. -/
def dalle3_theme_professional : String :=
  "professional corporate event poster excellence, business conference premium design,
  clean modern layout with perfect alignment, sophisticated typography,
  brand-aligned design system, executive luxury event, ultra detailed,
  perfect spacing, corporate elegance, no text"

/-- The theme table of `_build_dalle3_poster_prompt` (lines 807-897). -/
def dalle3_theme_prompts : List (String × String) :=
  [("cyberpunk",
    "cyberpunk event poster masterpiece, neon noir aesthetic, futuristic megacityscape,
  vibrant neon color palette (electric blue, hot pink, lime green), detailed cyberpunk architecture,
  atmospheric lighting with volumetric fog, cinematic composition, ultra detailed,
  professional graphic design, sharp focus, perfect lighting, no text"),
   ("elegant",
    "elegant luxury event poster, gold foil accents, marble and crystal textures,
  sophisticated modern typography, minimalist luxury design with ample white space,
  black and gold color scheme, professional corporate design, high-end exclusive event,
  award-winning design, ultra detailed, clean composition, premium finish, no text"),
   ("minimalistic",
    "minimalist professional poster masterpiece, Swiss International Style design,
  clean elegant typography, ample intelligent white space, geometric elements,
  modern sophisticated aesthetic, professional grid-based layout, refined color palette,
  ultra sharp, perfect balance, timeless design, no text"),
   ("vibrant",
    "vibrant energetic event poster masterpiece, bold saturated colors,
  dynamic asymmetric composition, festival atmosphere with joyful celebration energy,
  mixed media collage with texture overlays, professional illustration style,
  eye-catching design with strong visual hierarchy, ultra detailed, perfect contrast, no text"),
   ("professional", dalle3_theme_professional),
   ("nature",
    "organic natural event poster masterpiece, eco-friendly sustainable design,
  detailed botanical illustrations with leaf patterns, earthy green color palette,
  sustainable design with natural textures, environmental conservation theme,
  professional organic layout, natural lighting, serene composition, no text"),
   ("artistic",
    "artistic creative event poster excellence, painterly style with visible brush strokes,
  abstract geometric elements, mixed media collage with texture layers,
  textured background with subtle patterns, creative dynamic composition,
  professional art direction, artistic integrity, emotional impact, no text"),
   ("tech",
    "modern tech event poster masterpiece, futuristic innovative design,
  digital circuit board patterns with glowing connections, glowing neon effects,
  innovative technology theme with data visualization elements,
  professional tech industry design, cybernetic aesthetic, forward-thinking, no text")]

/-- `theme_prompts.get(data['theme'].lower(), theme_prompts["professional"])`
for the DALL-E 3 builder. -/
def dalle3_theme_desc (theme : String) : String :=
  (List.lookup (pyLower theme) dalle3_theme_prompts).getD dalle3_theme_professional

/-- The event-type table of `_build_dalle3_poster_prompt`. -/
def dalle3_event_prompts : List (String × String) :=
  [("workshop", "educational workshop poster, creative collaborative learning environment"),
   ("conference", "professional conference poster, networking business event"),
   ("social", "social event poster, community gathering celebration"),
   ("sports", "sports event poster, athletic competition energy"),
   ("cultural", "cultural festival poster, traditional artistic elements"),
   ("tech", "technology conference poster, digital innovation summit"),
   ("seminar", "educational seminar poster, professional development focus"),
   ("competition", "competitive event poster, challenge and achievement celebration")]

/-- `event_prompts.get(data['event_type'].lower(), "professional premium event")`
for the DALL-E 3 builder. -/
def dalle3_event_desc (event_type : String) : String :=
  (List.lookup (pyLower event_type) dalle3_event_prompts).getD "professional premium event"

/-- The fixed quality-enhancer fragment of `_build_dalle3_poster_prompt`. -/
def dalle3_quality_enhancers : String :=
  "\n        masterpiece, best quality, 8k resolution, ultra detailed, professional photography,\n        cinematic lighting, perfect proportions, award-winning design, trending on artstation\n        "

/-- `_build_dalle3_poster_prompt` (lines 807-897). -/
def build_dalle3_poster_prompt (data : PosterRequest) : String :=
  let theme_desc := dalle3_theme_desc data.theme
  let event_desc := dalle3_event_desc data.event_type
  pyCollapseWs ("\n        Professional event poster design for " ++ data.event_name ++ " "
    ++ data.event_type ++ ",\n        " ++ event_desc ++ ", " ++ theme_desc ++ ", "
    ++ dalle3_quality_enhancers
    ++ ",\n        perfect visual hierarchy and composition, attractive compelling imagery,\n        professional graphic design excellence, no text or letters\n        ")

/-- The individually failable enhancement steps of
`_apply_premium_enhancements`; the PIL operations themselves are abstract
parameters (an `Except.error` models the step raising).  `toneMapping`
(`_apply_tone_mapping`) catches its own exceptions and is total. -/
structure EnhanceOps (I : Type) where
  resizeIfSmall : I → Except Unit I
  detailFilter : I → Except Unit I
  unsharp1 : I → Except Unit I
  contrast : I → Except Unit I
  color : I → Except Unit I
  brightness : I → Except Unit I
  sharpness : I → Except Unit I
  toneMapping : I → I
  unsharpFinal : I → Except Unit I

/-- Run one rebinding step inside the single `try` of
`_apply_premium_enhancements`: on success continue with the new image; if
the step raises, the `except` is reached and the function returns the
image as it was just before the failing step. -/
def enhStep {I : Type} (f : I → Except Unit I) (image : I) (k : I → I) : I :=
  match f image with
  | Except.ok next => k next
  | Except.error _ => image

/-- `_apply_premium_enhancements` (effective definition, lines 1544-1581):
resize-if-small, detail, unsharp mask, contrast, color, brightness,
sharpness, tone mapping (skipped when crisp), final unsharp mask — all
inside one try/except. -/
def apply_premium_enhancements {I : Type} (ops : EnhanceOps I) (crisp : Bool) (image : I) : I :=
  enhStep ops.resizeIfSmall image fun image =>
  enhStep ops.detailFilter image fun image =>
  enhStep ops.unsharp1 image fun image =>
  enhStep ops.contrast image fun image =>
  enhStep ops.color image fun image =>
  enhStep ops.brightness image fun image =>
  enhStep ops.sharpness image fun image =>
  enhStep ops.unsharpFinal (if crisp then image else ops.toneMapping image) fun image => image

/-- The dimension effect of each PIL step on the success path: resize to
1024x1024 when the width is below 1024, every other filter/enhancement
preserves dimensions. -/
def dims_enhance_ops : EnhanceOps Img where
  resizeIfSmall img := Except.ok (if img.width < 1024 then ⟨1024, 1024⟩ else img)
  detailFilter img := Except.ok img
  unsharp1 img := Except.ok img
  contrast img := Except.ok img
  color img := Except.ok img
  brightness img := Except.ok img
  sharpness img := Except.ok img
  toneMapping img := img
  unsharpFinal img := Except.ok img

/-- `_add_premium_text_overlay`: overlays and text are composited onto the
image in place, preserving its dimensions; the internal try/except returns
the image either way. -/
def add_premium_text_overlay (image : Img) (_data : PosterRequest) : Img := image

/-- `_generate_premium_template_poster` (lines 1929-2045): the network-free
template poster drawn on a fixed canvas (`width, height = 1200, 1600`);
gradients, decorative shapes and text are drawn in place. -/
def generate_premium_template_poster (_data : PosterRequest) : Img := ⟨1200, 1600⟩

/-- `_finalize_premium_poster` (lines 2047-2065): resize to (1200, 1600)
unless already that size, then dimension-preserving sharpening and
contrast. -/
def finalize_premium_poster (image : Img) : Img :=
  if (image.width, image.height) ≠ (1200, 1600) then ⟨1200, 1600⟩ else image

/-- An HTTP response from an image-generation endpoint: status code and
the image decoded from the body (`none` when the body does not decode to
an image; a raising request is modelled as a non-200 status). -/
structure HttpResp where
  status : Nat
  body : Option Img
deriving Repr, DecidableEq

/-- Trace of one image-adapter call: the returned value, the number of
HTTP requests made, and the seconds spent in backoff sleeps. -/
structure AdapterTrace where
  result : Option Img
  requests : Nat
  sleepSeconds : Nat
deriving Repr, DecidableEq

/-- `_generate_with_sdxl_premium` (effective definition, lines 1269-1307):
a single `requests.post`; on status 200 the decoded body is returned, on
any other status (503 included) the adapter logs the code and returns
`None`.  No retry loop and no sleep exist. -/
def generate_with_sdxl_premium (responses : Nat → HttpResp) : AdapterTrace :=
  let r := responses 0
  { result := if r.status = 200 then r.body else none
    requests := 1
    sleepSeconds := 0 }

/-- The fixed model list of `_generate_with_dalle_style`. -/
def dalle_style_models : List String :=
  ["black-forest-labs/FLUX.1-schnell",
   "stabilityai/stable-diffusion-xl-base-1.0",
   "runwayml/stable-diffusion-v1-5"]

/-- The model loop of `_generate_with_dalle_style`: one `requests.post`
per model; the first 200 response that decodes to an image is returned,
any other outcome moves on to the next model. -/
def dalle_style_loop (responses : Nat → HttpResp) : Nat → Nat → AdapterTrace
  | i, 0 => ⟨none, i, 0⟩
  | i, n + 1 =>
    let r := responses i
    if r.status = 200 then
      match r.body with
      | some img => ⟨some img, i + 1, 0⟩
      | none => dalle_style_loop responses (i + 1) n
    else dalle_style_loop responses (i + 1) n

/-- `_generate_with_dalle_style` (lines 1309-1355). -/
def generate_with_dalle_style (responses : Nat → HttpResp) : AdapterTrace :=
  dalle_style_loop responses 0 dalle_style_models.length

/-- The provider outcomes and exception behaviour seen by one
`generate_poster` call: what each adapter call returned (`none` = the
adapter signalled failure) and whether an exception escaped the `try`
body mid-pipeline (reaching the `except` branch). -/
structure PosterEnv where
  sdxl : Option Img
  dalleStyle : Option Img
  raised : Bool
deriving Repr, DecidableEq

/-- `generate_poster` (effective definition, lines 1205-1267): SD-XL
first, then the DALL-E-style models, then the premium template; then
enhancements, text overlay and finalization; the `except` branch returns
the template poster, still with status success. -/
def generate_poster (env : PosterEnv) (data : PosterRequest) : PyDict :=
  if env.raised then
    let image := generate_premium_template_poster data
    [("image_url", PyVal.vimg image),
     ("prompt_used", PyVal.vstr "premium-event-poster-design"),
     ("status", PyVal.vstr "success"),
     ("model_used", PyVal.vstr "ultimate-premium-fallback")]
  else
    let step1 : Img × String :=
      match env.sdxl with
      | some img => (img, "stable-diffusion-xl-premium")
      | none =>
        match env.dalleStyle with
        | some img => (img, "dalle-style-premium")
        | none => (generate_premium_template_poster data, "premium-template")
    let image := apply_premium_enhancements dims_enhance_ops data.crisp_mode step1.1
    let image := add_premium_text_overlay image data
    let image := finalize_premium_poster image
    [("image_url", PyVal.vimg image),
     ("prompt_used", PyVal.vstr (build_premium_poster_prompt data)),
     ("status", PyVal.vstr "success"),
     ("model_used", PyVal.vstr step1.2),
     ("dimensions", PyVal.vstr (toString image.width ++ "x" ++ toString image.height)),
     ("file_size", PyVal.vother)]

/-- The provider outcomes seen by the earlier, shadowed `generate_poster`. -/
structure ShadowedPosterEnv where
  dalle3 : Option Img
  sdxl : Option Img
  raised : Bool
deriving Repr, DecidableEq

/-- The earlier `generate_poster` (lines 712-772), shadowed for every
caller by the later class-body definition: DALL-E 3 first (keeping the
initial "dall-e-3-premium" tag when it succeeds), then SD-XL, then the
template. -/
def generate_poster_shadowed (env : ShadowedPosterEnv) (data : PosterRequest) : PyDict :=
  if env.raised then
    let image := generate_premium_template_poster data
    [("image_url", PyVal.vimg image),
     ("prompt_used", PyVal.vstr "premium-event-poster-design"),
     ("status", PyVal.vstr "success"),
     ("model_used", PyVal.vstr "ultimate-premium-fallback")]
  else
    let step1 : Img × String :=
      match env.dalle3 with
      | some img => (img, "dall-e-3-premium")
      | none =>
        match env.sdxl with
        | some img => (img, "stable-diffusion-xl-premium")
        | none => (generate_premium_template_poster data, "premium-template")
    let image := apply_premium_enhancements dims_enhance_ops data.crisp_mode step1.1
    let image := add_premium_text_overlay image data
    let image := finalize_premium_poster image
    [("image_url", PyVal.vimg image),
     ("prompt_used", PyVal.vstr (build_dalle3_poster_prompt data)),
     ("status", PyVal.vstr "success"),
     ("model_used", PyVal.vstr step1.2),
     ("dimensions", PyVal.vstr (toString image.width ++ "x" ++ toString image.height)),
     ("file_size", PyVal.vother)]

/-- Python `needle in hay` on strings: substring containment. -/
def strContainsSub (hay needle : String) : Bool :=
  decide (needle.data <:+: hay.data)

/-- The `rsvp_info` cascade of `_premium_invitation_template`
(truthiness-guarded, so the branch values are the stored strings). -/
def invitation_rsvp_info (data : InvitationRequest) : String :=
  if pyTruthyStr data.rsvp_deadline ∧ pyTruthyStr data.rsvp_email then
    "Kindly honor us with your response by " ++ data.rsvp_deadline.getD ""
      ++ "\nEmail: " ++ data.rsvp_email.getD ""
  else if pyTruthyStr data.rsvp_deadline then
    "Please RSVP by " ++ data.rsvp_deadline.getD ""
  else if pyTruthyStr data.rsvp_email then
    "RSVP Email: " ++ data.rsvp_email.getD ""
  else "Your gracious response is requested at your earliest convenience"

/-- `_premium_invitation_template` (lines 443-485). -/
def premium_invitation_template (data : InvitationRequest) : String :=
  let organizer := pyGetRender data.organizer_name "The Event Organizing Committee"
  let rsvp_info := invitation_rsvp_info data
  let dress_code := pyGetRender data.dress_code "Elegant Attire"
  let special_instructions := pyGetRender data.special_instructions
    "Join us for an evening of inspiration, connection, and celebration."
  "\nWith great pleasure,\n\n" ++ organizer
    ++ "\n\nrequests the honor of your presence at\n\n✨ " ++ pyUpper data.event_name
    ++ " ✨\n\nA distinguished " ++ pyTitle data.event_type
    ++ " gathering\n\n📅 Date: " ++ data.date
    ++ "\n⏰ Time: " ++ data.time
    ++ "\n📍 Venue: " ++ data.venue
    ++ "\n👔 Attire: " ++ dress_code
    ++ "\n\n" ++ special_instructions
    ++ "\n\n" ++ rsvp_info
    ++ "\n\nWe eagerly anticipate the pleasure of your company\nat this memorable occasion.\n\nWith warmest regards,\n"
    ++ organizer ++ "\n"

/-- `_format_premium_invitation` (lines 415-441): strip and keep non-empty
lines, insert a blank line before salutation keywords, and append a
closing when none is present.  The `except` returns the raw text; it is
reached when the line list is empty (`formatted_lines[-1]` raises
IndexError) or when the appended organizer value is `None` (`'\n'.join`
raises TypeError). -/
def format_premium_invitation (invitation_text : String) (data : InvitationRequest) : String :=
  let ls := ((pySplitLines invitation_text).map pyStrip).filter (fun l => l ≠ "")
  let formatted := ls.foldl (fun acc line =>
    (if (["cordially", "pleasure", "honor", "delighted"].any
          (fun kw => strContainsSub (pyLower line) kw)) ∧ acc ≠ [] then
      acc ++ [""] else acc) ++ [line]) []
  match formatted.getLast? with
  | none => invitation_text
  | some last =>
    if ["regards", "sincerely", "gratefully"].any (fun kw => strContainsSub (pyLower last) kw) then
      pyJoin "\n" formatted
    else
      match data.organizer_name with
      | some org =>
        pyJoin "\n" (formatted ++ ["", "We look forward to celebrating with you,", "", org])
      | none => invitation_text

/-- The three-field dict returned by `_generate_premium_invitation_text`. -/
structure InvTextResult where
  invitation_text : String
  formatted_invitation : String
  model_used : String
deriving Repr, DecidableEq

/-- `_generate_premium_invitation_text` (lines 298-357): template when the
Groq client is missing ("premium-template"), the provider text when the
call succeeds ("llama-3.1-70b-premium"), template again when it raises
("premium-fallback"). -/
def generate_premium_invitation_text (hasClient : Bool) (textOutcome : Except Unit String)
    (data : InvitationRequest) : InvTextResult :=
  if !hasClient then
    let template_result := premium_invitation_template data
    ⟨template_result, template_result, "premium-template"⟩
  else
    match textOutcome with
    | Except.ok invitation_text =>
      ⟨invitation_text, format_premium_invitation invitation_text data, "llama-3.1-70b-premium"⟩
    | Except.error _ =>
      let template_result := premium_invitation_template data
      ⟨template_result, template_result, "premium-fallback"⟩

/-- The mailto action string encoded in the RSVP QR code. -/
def qr_content (data : InvitationRequest) : String :=
  "mailto:" ++ data.rsvp_email.getD "" ++ "?subject=RSVP for " ++ data.event_name
    ++ "&body=Dear Organizers,%0A%0AI am delighted to confirm my attendance for "
    ++ data.event_name ++ " on " ++ data.date ++ ".%0A%0AWith appreciation,"

/-- `_generate_premium_qr_code` (lines 487-541): `None` when
`data.get('rsvp_email')` is falsy; otherwise a data URL of a QR image
whose encoded payload is the mailto action string (styling and borders
preserve the payload). -/
def generate_premium_qr_code (data : InvitationRequest) : Option String :=
  if !pyTruthyStr data.rsvp_email then none
  else some (qr_content data)

/-- `_generate_fallback_invitation_design` (lines 666-698): an A4 canvas
(`width, height = 2480, 3508`) with background, decorations and text drawn
in place. -/
def generate_fallback_invitation_design (_data : InvitationRequest) : Option Img :=
  some ⟨2480, 3508⟩

/-- `_generate_dalle3_invitation_design` (lines 543-582): needs the Groq
client; a successful provider call is enhanced and returned; a missing
client or any exception falls back to the template design. -/
def generate_dalle3_invitation_design (hasClient : Bool) (designOutcome : Except Unit Img)
    (data : InvitationRequest) : Option Img :=
  if !hasClient then generate_fallback_invitation_design data
  else
    match designOutcome with
    | Except.ok img => some (apply_premium_enhancements dims_enhance_ops data.crisp_mode img)
    | Except.error _ => generate_fallback_invitation_design data

/-- A possibly-`None` QR data URL as a dict value. -/
def pyValOfQr : Option String → PyVal
  | none => PyVal.vnone
  | some p => PyVal.vqr p

/-- A possibly-`None` image data URL as a dict value. -/
def pyValOfImg : Option Img → PyVal
  | none => PyVal.vnone
  | some i => PyVal.vimg i

/-- `_professional_fallback_invitation_generation` (effective definition,
lines 1193-1203). -/
def professional_fallback_invitation_generation (data : InvitationRequest) : PyDict :=
  let invitation_text := premium_invitation_template data
  [("invitation_text", PyVal.vstr invitation_text),
   ("formatted_invitation", PyVal.vstr invitation_text),
   ("qr_code_url",
     if pyTruthyStr data.rsvp_email then pyValOfQr (generate_premium_qr_code data)
     else PyVal.vnone),
   ("invitation_design", PyVal.vnone),
   ("status", PyVal.vstr "success"),
   ("model_used", PyVal.vstr "premium-fallback-template")]

/-- The provider outcomes and exception behaviour seen by one
`generate_invitation` call. -/
structure InvitationEnv where
  hasClient : Bool
  textOutcome : Except Unit String
  designOutcome : Except Unit Img
  raised : Bool

/-- `generate_invitation` (lines 271-296): text, QR code and design are
generated and assembled; an exception escaping the `try` reaches the
fallback, still with status success. -/
def generate_invitation (env : InvitationEnv) (data : InvitationRequest) : PyDict :=
  if env.raised then professional_fallback_invitation_generation data
  else
    let invitation_result := generate_premium_invitation_text env.hasClient env.textOutcome data
    let qr_code_url := generate_premium_qr_code data
    let invitation_design := generate_dalle3_invitation_design env.hasClient env.designOutcome data
    [("invitation_text", PyVal.vstr invitation_result.invitation_text),
     ("formatted_invitation", PyVal.vstr invitation_result.formatted_invitation),
     ("qr_code_url", pyValOfQr qr_code_url),
     ("invitation_design", pyValOfImg invitation_design),
     ("status", PyVal.vstr "success"),
     ("model_used", PyVal.vstr invitation_result.model_used)]

/-- Fixture: a schema-valid poster request (the end-to-end scenario of the
spec). -/
def tech_fest_poster : PosterRequest :=
  ⟨"Tech Fest", "conference", "2024-03-15", "9:00", "Hall A", "professional",
   false, none, none, none⟩

/-- Fixture: every image provider fails, no internal exception. -/
def all_providers_fail : PosterEnv := ⟨none, none, false⟩

/-- Fixture: a poster request whose theme and event type appear in no
lookup table. -/
def unknown_theme_poster : PosterRequest :=
  ⟨"Tech Fest", "hackathon", "2024-03-15", "9:00", "Hall A", "neonpunk",
   false, none, none, none⟩

/-- Fixture: a response stream answering 503 to the first request and 200
with a decodable 1024x1024 image to every later one. -/
def resp_503_then_200 : Nat → HttpResp :=
  fun i => if i = 0 then ⟨503, none⟩ else ⟨200, some ⟨1024, 1024⟩⟩

/-- Fixture enhancement steps over trace lists: every step appends its own
name to the trace; the contrast step raises. -/
def trace_ops : EnhanceOps (List String) where
  resizeIfSmall l := Except.ok (l ++ ["resize"])
  detailFilter l := Except.ok (l ++ ["detail"])
  unsharp1 l := Except.ok (l ++ ["unsharp1"])
  contrast _ := Except.error ()
  color l := Except.ok (l ++ ["color"])
  brightness l := Except.ok (l ++ ["brightness"])
  sharpness l := Except.ok (l ++ ["sharpness"])
  toneMapping l := l ++ ["tonemap"]
  unsharpFinal l := Except.ok (l ++ ["unsharpFinal"])

/-- `trace_ops` with the failing contrast step replaced by a skip — the
behaviour the claim predicts for the whole chain. -/
def trace_ops_contrast_skipped : EnhanceOps (List String) :=
  { trace_ops with contrast := fun l => Except.ok l }

/-- Fixture: an invitation request whose `rsvp_email` key is present but
holds the empty string (accepted by the schema, which validates
`rsvp_email` as a plain optional string). -/
def empty_rsvp_invitation : InvitationRequest :=
  ⟨"Gala Night", "social", "2024-06-01", "19:00", "Grand Hall",
   none, some "", none, none, some "The Committee", none, none, none, false⟩

/-- Fixture: an invitation request with a non-empty `rsvp_email`. -/
def rsvp_invitation : InvitationRequest :=
  ⟨"Gala Night", "social", "2024-06-01", "19:00", "Grand Hall",
   none, some "rsvp@club.org", none, none, some "The Committee", none, none, none, false⟩

/-- Fixture: no Groq client, both provider calls raise, no escaping
exception. -/
def no_client_invitation_env : InvitationEnv :=
  ⟨false, Except.error (), Except.error (), false⟩

/-- Fixture: a schema-valid email request. -/
def tech_fest_email : EmailRequest :=
  ⟨"Tech Fest", "conference", "March 15", "9:00 AM", "Hall A", "Students",
   "enthusiastic", [], some "techfest@college.edu", some "CS Department"⟩

/-! ### Library lemmas about the Python string primitives -/

theorem str_mk_ne_empty {l : List Char} (h : l ≠ []) : String.mk l ≠ "" := by
  intro hc
  exact h (congrArg String.data hc)

theorem str_append_ne_left {a b : String} (h : a ≠ "") : a ++ b ≠ "" := by
  intro hc
  have hd : a.data ++ b.data = ([] : List Char) := by
    have h2 := congrArg String.data hc
    rw [String.data_append] at h2
    exact h2
  exact h (String.ext (List.append_eq_nil.mp hd).1)

theorem str_append_ne_right {a b : String} (h : b ≠ "") : a ++ b ≠ "" := by
  intro hc
  have hd : a.data ++ b.data = ([] : List Char) := by
    have h2 := congrArg String.data hc
    rw [String.data_append] at h2
    exact h2
  exact h (String.ext (List.append_eq_nil.mp hd).2)

theorem str_append_assoc (a b c : String) : a ++ b ++ c = a ++ (b ++ c) := by
  apply String.ext
  simp [String.data_append, List.append_assoc]

theorem str_exists_nonws_right (a : String) {b : String}
    (h : ∃ c ∈ b.data, c.isWhitespace = false) :
    ∃ c ∈ (a ++ b).data, c.isWhitespace = false := by
  obtain ⟨c, hc, hw⟩ := h
  refine ⟨c, ?_, hw⟩
  rw [String.data_append]
  exact List.mem_append_right _ hc

theorem mem_dropWhile_of_not {p : Char → Bool} {c : Char} (hp : p c = false) :
    ∀ {l : List Char}, c ∈ l → c ∈ l.dropWhile p := by
  intro l
  induction l with
  | nil => intro h; cases h
  | cons d ds ih =>
    intro hm
    rw [List.dropWhile_cons]
    by_cases hd : p d
    · rw [if_pos hd]
      rcases List.mem_cons.mp hm with rfl | hmem
      · rw [hp] at hd; cases hd
      · exact ih hmem
    · rw [if_neg hd]
      exact hm

theorem exists_not_of_dropWhile_ne {p : Char → Bool} :
    ∀ {l : List Char}, l.dropWhile p ≠ [] → ∃ c ∈ l, p c = false := by
  intro l
  induction l with
  | nil => intro h; simp at h
  | cons d ds ih =>
    intro h
    rw [List.dropWhile_cons] at h
    by_cases hd : p d
    · rw [if_pos hd] at h
      obtain ⟨c, hc, hcp⟩ := ih h
      exact ⟨c, List.mem_cons_of_mem _ hc, hcp⟩
    · exact ⟨d, List.mem_cons_self .., by simpa using hd⟩

theorem mem_of_mem_dropWhile {p : Char → Bool} {c : Char} :
    ∀ {l : List Char}, c ∈ l.dropWhile p → c ∈ l := by
  intro l
  induction l with
  | nil => intro h; simp at h
  | cons d ds ih =>
    intro h
    rw [List.dropWhile_cons] at h
    by_cases hd : p d
    · rw [if_pos hd] at h
      exact List.mem_cons_of_mem _ (ih h)
    · rw [if_neg hd] at h
      exact h

theorem stripChars_ne_nil {l : List Char} (h : ∃ c ∈ l, c.isWhitespace = false) :
    stripChars l ≠ [] := by
  obtain ⟨c, hc, hw⟩ := h
  have h1 : c ∈ l.dropWhile Char.isWhitespace := mem_dropWhile_of_not hw hc
  have h2 : c ∈ (l.dropWhile Char.isWhitespace).reverse := List.mem_reverse.mpr h1
  have h3 : c ∈ (l.dropWhile Char.isWhitespace).reverse.dropWhile Char.isWhitespace :=
    mem_dropWhile_of_not hw h2
  exact List.ne_nil_of_mem (List.mem_reverse.mpr h3)

theorem exists_nonws_of_stripChars_ne {l : List Char} (h : stripChars l ≠ []) :
    ∃ c ∈ l, c.isWhitespace = false := by
  unfold stripChars at h
  have h1 : (l.dropWhile Char.isWhitespace).reverse.dropWhile Char.isWhitespace ≠ [] := by
    intro he; apply h; rw [he]; rfl
  obtain ⟨c, hc, hw⟩ := exists_not_of_dropWhile_ne h1
  exact ⟨c, mem_of_mem_dropWhile (List.mem_reverse.mp hc), hw⟩

theorem pyStrip_ne_empty {s : String} (h : ∃ c ∈ s.data, c.isWhitespace = false) :
    pyStrip s ≠ "" :=
  str_mk_ne_empty (stripChars_ne_nil h)

theorem exists_nonws_of_pyStrip_ne {s : String} (h : pyStrip s ≠ "") :
    ∃ c ∈ s.data, c.isWhitespace = false := by
  apply exists_nonws_of_stripChars_ne
  intro he
  apply h
  unfold pyStrip
  rw [he]

theorem splitLinesAux_mem {c : Char} (hc : c ≠ '\n') :
    ∀ (l acc : List Char), (c ∈ l ∨ c ∈ acc) → ∃ p ∈ splitLinesAux l acc, c ∈ p := by
  intro l
  induction l with
  | nil =>
    intro acc hm
    rcases hm with h | h
    · cases h
    · exact ⟨acc.reverse, by simp [splitLinesAux], List.mem_reverse.mpr h⟩
  | cons d ds ih =>
    intro acc hm
    by_cases hd : d = '\n'
    · subst hd
      have e : splitLinesAux ('\n' :: ds) acc = acc.reverse :: splitLinesAux ds [] := by
        simp [splitLinesAux]
      rw [e]
      rcases hm with h | h
      · rcases List.mem_cons.mp h with rfl | hmem
        · exact absurd rfl hc
        · obtain ⟨p, hp, hcp⟩ := ih [] (Or.inl hmem)
          exact ⟨p, List.mem_cons_of_mem _ hp, hcp⟩
      · exact ⟨acc.reverse, List.mem_cons_self .., List.mem_reverse.mpr h⟩
    · have e : splitLinesAux (d :: ds) acc = splitLinesAux ds (d :: acc) := by
        simp [splitLinesAux, hd]
      rw [e]
      apply ih (d :: acc)
      rcases hm with h | h
      · rcases List.mem_cons.mp h with rfl | hmem
        · exact Or.inr (List.mem_cons_self ..)
        · exact Or.inl hmem
      · exact Or.inr (List.mem_cons_of_mem _ h)

theorem pySplitLines_exists_nonws {s : String} (h : ∃ c ∈ s.data, c.isWhitespace = false) :
    ∃ line ∈ pySplitLines s, ∃ c ∈ line.data, c.isWhitespace = false := by
  obtain ⟨c, hc, hw⟩ := h
  have hcn : c ≠ '\n' := by
    intro he; rw [he] at hw; exact absurd hw (by decide)
  obtain ⟨p, hp, hcp⟩ := splitLinesAux_mem hcn s.data [] (Or.inl hc)
  exact ⟨String.mk p, List.mem_map_of_mem _ hp, ⟨c, hcp, hw⟩⟩

theorem pyJoin_ne_empty (sep : String) :
    ∀ {l : List String}, l ≠ [] → (∀ x ∈ l, x ≠ "") → pyJoin sep l ≠ "" := by
  intro l
  match l with
  | [] => intro h _; exact absurd rfl h
  | [x] =>
    intro _ hx
    show x ≠ ""
    exact hx x (List.mem_cons_self ..)
  | x :: y :: ys =>
    intro _ hx
    show x ++ sep ++ pyJoin sep (y :: ys) ≠ ""
    exact str_append_ne_left (str_append_ne_left (hx x (List.mem_cons_self ..)))

theorem pyCapitalizeFirst_ne_empty {x : String} (h : x ≠ "") : pyCapitalizeFirst x ≠ "" := by
  unfold pyCapitalizeFirst
  split
  · exact h
  · split
    · exact str_mk_ne_empty (by simp)
    · exact h

theorem enhance_email_formatting_ne_empty {b : String} (h : pyStrip b ≠ "") :
    enhance_email_formatting b ≠ "" := by
  obtain ⟨line, hline, hnw⟩ := pySplitLines_exists_nonws (exists_nonws_of_pyStrip_ne h)
  have hstrip : pyStrip line ≠ "" := pyStrip_ne_empty hnw
  have hmem : pyStrip line ∈ ((pySplitLines b).map pyStrip).filter (fun l => l ≠ "") :=
    List.mem_filter.mpr ⟨List.mem_map_of_mem _ hline, by simpa using hstrip⟩
  have hmap : pyCapitalizeFirst (pyStrip line) ∈
      (((pySplitLines b).map pyStrip).filter (fun l => l ≠ "")).map pyCapitalizeFirst :=
    List.mem_map_of_mem _ hmem
  simp only [enhance_email_formatting]
  refine pyJoin_ne_empty _ (List.ne_nil_of_mem hmap) ?_
  intro x hx
  obtain ⟨y, hy, rfl⟩ := List.mem_map.mp hx
  have hy2 : y ≠ "" := by simpa using (List.mem_filter.mp hy).2
  exact pyCapitalizeFirst_ne_empty hy2

theorem getD_lookup_mem {α : Type} (k : String) (d : α) :
    ∀ (t : List (String × α)),
      (List.lookup k t).getD d = d ∨ (List.lookup k t).getD d ∈ t.map Prod.snd := by
  intro t
  induction t with
  | nil => left; rfl
  | cons kv ts ih =>
    by_cases hk : (k == kv.1) = true
    · right
      have e : List.lookup k (kv :: ts) = some kv.2 := by
        rcases kv with ⟨a, b⟩
        simp only [List.lookup, hk]
      rw [e]
      exact List.mem_map_of_mem _ (List.mem_cons_self ..)
    · have e : List.lookup k (kv :: ts) = List.lookup k ts := by
        rcases kv with ⟨a, b⟩
        simp only [List.lookup]
        rw [Bool.of_not_eq_true hk]
      rw [e]
      rcases ih with h | h
      · exact Or.inl h
      · right
        rcases kv with ⟨a, b⟩
        exact List.mem_cons_of_mem _ h

theorem lookup_getD_of_not_mem {α : Type} {k : String} :
    ∀ {t : List (String × α)} {d : α}, k ∉ t.map Prod.fst → (List.lookup k t).getD d = d := by
  intro t
  induction t with
  | nil => intro d _; rfl
  | cons kv ts ih =>
    intro d hk
    have hk2 : k ≠ kv.1 ∧ k ∉ ts.map Prod.fst := by
      simpa using hk
    have e : List.lookup k (kv :: ts) = List.lookup k ts := by
      rcases kv with ⟨a, b⟩
      simp only [List.lookup]
      rw [show (k == a) = false from by
        simp only [beq_eq_false_iff_ne]
        exact hk2.1]
    rw [e]
    exact ih hk2.2

theorem pyChoice_mem {l : List String} (h : l ≠ []) (pick : Nat) : pyChoice l pick ∈ l := by
  have hlt : pick % l.length < l.length := Nat.mod_lt _ (List.length_pos.mpr h)
  unfold pyChoice
  rw [List.getD_eq_getElem l "" hlt]
  exact List.getElem_mem hlt

theorem wordsAux_ne_nil {c : Char} (hw : c.isWhitespace = false) :
    ∀ (l acc : List Char), (c ∈ l ∨ acc ≠ []) → wordsAux acc l ≠ [] := by
  intro l
  induction l with
  | nil =>
    intro acc hm
    rcases hm with h | h
    · cases h
    · simp [wordsAux, h]
  | cons d ds ih =>
    intro acc hm
    by_cases hd : d.isWhitespace
    · by_cases ha : acc = []
      · subst ha
        have e : wordsAux [] (d :: ds) = wordsAux [] ds := by simp [wordsAux, hd]
        rw [e]
        apply ih []
        left
        rcases hm with h | h
        · rcases List.mem_cons.mp h with rfl | hmem
          · rw [hd] at hw; cases hw
          · exact hmem
        · exact absurd rfl h
      · have e : wordsAux acc (d :: ds) = acc.reverse :: wordsAux [] ds := by
          simp [wordsAux, hd, ha]
        rw [e]
        exact List.cons_ne_nil _ _
    · have e : wordsAux acc (d :: ds) = wordsAux (d :: acc) ds := by simp [wordsAux, hd]
      rw [e]
      exact ih (d :: acc) (Or.inr (List.cons_ne_nil _ _))

theorem wordsAux_mem_ne_nil :
    ∀ (l acc : List Char) (w : List Char), w ∈ wordsAux acc l → w ≠ [] := by
  intro l
  induction l with
  | nil =>
    intro acc w hw
    by_cases ha : acc = []
    · subst ha; simp [wordsAux] at hw
    · simp only [wordsAux, if_neg ha] at hw
      rcases List.mem_cons.mp hw with rfl | hw2
      · simpa using ha
      · simp at hw2
  | cons d ds ih =>
    intro acc w hw
    by_cases hd : d.isWhitespace
    · by_cases ha : acc = []
      · subst ha
        have e : wordsAux [] (d :: ds) = wordsAux [] ds := by simp [wordsAux, hd]
        rw [e] at hw
        exact ih [] w hw
      · have e : wordsAux acc (d :: ds) = acc.reverse :: wordsAux [] ds := by
          simp [wordsAux, hd, ha]
        rw [e] at hw
        rcases List.mem_cons.mp hw with rfl | hw2
        · simpa using ha
        · exact ih [] w hw2
    · have e : wordsAux acc (d :: ds) = wordsAux (d :: acc) ds := by simp [wordsAux, hd]
      rw [e] at hw
      exact ih (d :: acc) w hw

theorem joinSpace_ne_nil :
    ∀ {l : List (List Char)}, l ≠ [] → (∀ w ∈ l, w ≠ []) → joinSpace l ≠ [] := by
  intro l
  match l with
  | [] => intro h _; exact absurd rfl h
  | [w] =>
    intro _ hw
    show w ≠ []
    exact hw w (List.mem_cons_self ..)
  | w :: v :: ws =>
    intro _ _
    show w ++ ' ' :: joinSpace (v :: ws) ≠ []
    intro he
    have := (List.append_eq_nil.mp he).2
    simp at this

theorem pyCollapseWs_ne_empty {s : String} (h : ∃ c ∈ s.data, c.isWhitespace = false) :
    pyCollapseWs s ≠ "" := by
  obtain ⟨c, hc, hw⟩ := h
  apply str_mk_ne_empty
  apply joinSpace_ne_nil
  · exact wordsAux_ne_nil hw s.data [] (Or.inl hc)
  · exact fun w hww => wordsAux_mem_ne_nil s.data [] w hww

/-! ### Helper lemmas about the pipelines -/

theorem professional_email_template_ne_empty (data : EmailRequest) :
    professional_email_template data ≠ "" := by
  simp only [professional_email_template]
  exact str_append_ne_right (by decide)

theorem professional_email_template_has_nonws (data : EmailRequest) :
    ∃ c ∈ (professional_email_template data).data, c.isWhitespace = false := by
  simp only [professional_email_template]
  apply str_exists_nonws_right
  exact ⟨'T', by decide, by decide⟩

theorem mem_snd_of_lookup_eq_some {α : Type} {k : String} :
    ∀ {t : List (String × α)} {v : α}, List.lookup k t = some v → v ∈ t.map Prod.snd := by
  intro t
  induction t with
  | nil => intro v h; cases h
  | cons kv ts ih =>
    intro v h
    rcases kv with ⟨a, b⟩
    by_cases hk : (k == a) = true
    · simp only [List.lookup, hk] at h
      cases h
      exact List.mem_map_of_mem _ (List.mem_cons_self ..)
    · have hk2 : (k == a) = false := by simpa using hk
      simp only [List.lookup, hk2] at h
      exact List.mem_cons_of_mem _ (ih h)

theorem subject_pool_spec (n ty : String) :
    ((List.lookup ty (subject_templates n)).getD (subject_default_templates n)) ≠ [] ∧
    ∀ x ∈ (List.lookup ty (subject_templates n)).getD (subject_default_templates n), x ≠ "" := by
  cases hl : List.lookup ty (subject_templates n) with
  | none =>
    simp only [Option.getD_none]
    refine ⟨by simp [subject_default_templates], ?_⟩
    intro x hx
    simp only [subject_default_templates, List.mem_cons, List.not_mem_nil, or_false] at hx
    rcases hx with rfl | rfl | rfl
    · exact str_append_ne_right (by decide)
    · exact str_append_ne_right (by decide)
    · exact str_append_ne_left (by decide)
  | some v =>
    have hv := mem_snd_of_lookup_eq_some hl
    simp only [Option.getD_some]
    simp only [subject_templates, List.map_cons, List.map_nil, List.mem_cons,
      List.not_mem_nil, or_false] at hv
    rcases hv with rfl | rfl | rfl <;>
      refine ⟨by simp, ?_⟩ <;> intro x hx <;>
      simp only [List.mem_cons, List.not_mem_nil, or_false] at hx <;>
      rcases hx with rfl | rfl | rfl <;>
      exact str_append_ne_right (by decide)

theorem generate_professional_subject_ne_empty (data : EmailRequest) (pick : Nat) :
    generate_professional_subject data pick ≠ "" := by
  unfold generate_professional_subject
  obtain ⟨hne, hall⟩ := subject_pool_spec data.event_name data.event_type
  exact hall _ (pyChoice_mem hne pick)

theorem finalize_premium_poster_dims (image : Img) :
    finalize_premium_poster image = ⟨1200, 1600⟩ := by
  unfold finalize_premium_poster
  split
  · rfl
  · next hcond =>
    rcases image with ⟨w, hgt⟩
    simp only [ne_eq, not_not, Prod.mk.injEq] at hcond
    simp [hcond.1, hcond.2]

theorem poster_lookup_status (env : PosterEnv) (data : PosterRequest) :
    List.lookup "status" (generate_poster env data) = some (PyVal.vstr "success") := by
  rcases env with ⟨s, d, r⟩
  cases r
  · cases s
    · cases d <;> rfl
    · rfl
  · rfl

theorem poster_lookup_image (env : PosterEnv) (data : PosterRequest) :
    List.lookup "image_url" (generate_poster env data) = some (PyVal.vimg ⟨1200, 1600⟩) := by
  rcases env with ⟨s, d, r⟩
  cases r
  · cases s with
    | some img =>
      simp [generate_poster, finalize_premium_poster_dims, add_premium_text_overlay,
        List.lookup]
    | none =>
      cases d with
      | some img =>
        simp [generate_poster, finalize_premium_poster_dims, add_premium_text_overlay,
          List.lookup]
      | none =>
        simp [generate_poster, finalize_premium_poster_dims, add_premium_text_overlay,
          List.lookup]
  · rfl

theorem poster_lookup_model_used (env : PosterEnv) (data : PosterRequest) :
    List.lookup "model_used" (generate_poster env data) =
      some (PyVal.vstr (if env.raised then "ultimate-premium-fallback"
        else match env.sdxl with
          | some _ => "stable-diffusion-xl-premium"
          | none => match env.dalleStyle with
            | some _ => "dalle-style-premium"
            | none => "premium-template")) := by
  rcases env with ⟨s, d, r⟩
  cases r
  · cases s
    · cases d <;> rfl
    · rfl
  · rfl

theorem invitation_lookup_status (env : InvitationEnv) (data : InvitationRequest) :
    List.lookup "status" (generate_invitation env data) = some (PyVal.vstr "success") := by
  rcases env with ⟨hc, t, d, r⟩
  cases r
  · rfl
  · rfl

theorem invitation_lookup_model_used (env : InvitationEnv) (data : InvitationRequest) :
    ∃ m, List.lookup "model_used" (generate_invitation env data) = some (PyVal.vstr m)
      ∧ m ≠ "" := by
  rcases env with ⟨hc, t, d, r⟩
  cases r
  · cases hc
    · exact ⟨"premium-template", rfl, by decide⟩
    · cases t with
      | ok resp => exact ⟨"llama-3.1-70b-premium", rfl, by decide⟩
      | error e => exact ⟨"premium-fallback", rfl, by decide⟩
  · exact ⟨"premium-fallback-template", rfl, by decide⟩

theorem invitation_lookup_qr (env : InvitationEnv) (data : InvitationRequest) :
    List.lookup "qr_code_url" (generate_invitation env data) =
      some (if pyTruthyStr data.rsvp_email then PyVal.vqr (qr_content data)
        else PyVal.vnone) := by
  rcases env with ⟨hc, t, d, r⟩
  cases r
  · show List.lookup "qr_code_url" (generate_invitation ⟨hc, t, d, false⟩ data) = _
    by_cases h : pyTruthyStr data.rsvp_email
    · simp [generate_invitation, generate_premium_qr_code, h, pyValOfQr, List.lookup]
    · simp [generate_invitation, generate_premium_qr_code, h, pyValOfQr, List.lookup]
  · by_cases h : pyTruthyStr data.rsvp_email
    · simp [generate_invitation, professional_fallback_invitation_generation,
        generate_premium_qr_code, h, pyValOfQr, List.lookup]
    · simp [generate_invitation, professional_fallback_invitation_generation,
        generate_premium_qr_code, h, pyValOfQr, List.lookup]

theorem dalle_style_loop_trace (responses : Nat → HttpResp) :
    ∀ (n i : Nat), (dalle_style_loop responses i n).sleepSeconds = 0 ∧
      (dalle_style_loop responses i n).requests ≤ i + n := by
  intro n
  induction n with
  | zero => intro i; exact ⟨rfl, Nat.le_refl _⟩
  | succ m ih =>
    intro i
    by_cases h2 : (responses i).status = 200
    · cases hb : (responses i).body with
      | some img =>
        have e : dalle_style_loop responses i (m + 1) = ⟨some img, i + 1, 0⟩ := by
          simp [dalle_style_loop, h2, hb]
        rw [e]
        refine ⟨rfl, ?_⟩
        show i + 1 ≤ i + (m + 1)
        omega
      | none =>
        have e : dalle_style_loop responses i (m + 1) = dalle_style_loop responses (i + 1) m := by
          simp [dalle_style_loop, h2, hb]
        rw [e]
        obtain ⟨ha, hb2⟩ := ih (i + 1)
        exact ⟨ha, by omega⟩
    · have e : dalle_style_loop responses i (m + 1) = dalle_style_loop responses (i + 1) m := by
        simp [dalle_style_loop, h2]
      rw [e]
      obtain ⟨ha, hb2⟩ := ih (i + 1)
      exact ⟨ha, by omega⟩

/-! ### The claims -/

/-- C1: for every poster or invitation request the pipeline returns a
result with status "success" — under every combination of provider
outcomes, including all providers failing and an internal exception
escaping the try body; an error status can only originate in request
validation outside this core. -/
theorem c1_pipelines_always_report_success (penv : PosterEnv) (pdata : PosterRequest)
    (ienv : InvitationEnv) (idata : InvitationRequest) :
    List.lookup "status" (generate_poster penv pdata) = some (PyVal.vstr "success") ∧
    List.lookup "status" (generate_invitation ienv idata) = some (PyVal.vstr "success") :=
  ⟨poster_lookup_status penv pdata, invitation_lookup_status ienv idata⟩

/-- C2: `generate_email_content` always returns a non-empty subject and a
non-empty body — whether the text provider succeeds with any output
(parseable or not), the client is missing, or the provider call raises. -/
theorem c2_email_subject_body_nonempty (hasClient : Bool) (textOutcome : Except Unit String)
    (data : EmailRequest) (pick : Nat) :
    ∃ s b,
      List.lookup "subject" (generate_email_content hasClient textOutcome data pick) =
        some (PyVal.vstr s) ∧ s ≠ "" ∧
      List.lookup "body" (generate_email_content hasClient textOutcome data pick) =
        some (PyVal.vstr b) ∧ b ≠ "" := by
  cases hasClient with
  | false =>
    exact ⟨_, _, rfl, generate_professional_subject_ne_empty data pick, rfl,
      professional_email_template_ne_empty data⟩
  | true =>
    cases textOutcome with
    | error e =>
      exact ⟨_, _, rfl, generate_professional_subject_ne_empty data pick, rfl,
        professional_email_template_ne_empty data⟩
    | ok response =>
      refine ⟨parsed_email_subject response data pick,
        enhance_email_formatting (parsed_email_body_pre response data), rfl, ?_, rfl, ?_⟩
      · simp only [parsed_email_subject]
        split
        · exact generate_professional_subject_ne_empty data pick
        · next hne => exact hne
      · apply enhance_email_formatting_ne_empty
        unfold parsed_email_body_pre
        by_cases hb : pyStrip (email_raw_body response) = ""
        · rw [if_pos hb]
          exact pyStrip_ne_empty (professional_email_template_has_nonws data)
        · rw [if_neg hb]
          exact hb

/-- C3 (counterexample): with every provider failing, the poster image
payload has the 1200x1600 canvas — which is not square, contradicting the
claimed square canvas for posters. -/
theorem c3_counterexample_not_square :
    List.lookup "image_url" (generate_poster all_providers_fail tech_fest_poster) =
      some (PyVal.vimg ⟨1200, 1600⟩) ∧ (1200 : Nat) ≠ 1600 :=
  ⟨rfl, by decide⟩

/-- C3 (amended): for every poster request and every provider outcome —
including total provider failure served by the template renderer — the
returned image payload has the fixed 1200x1600 portrait canvas (the
template canvas, which is also the finalization target), never a square
one. -/
theorem c3_poster_canvas_always_1200x1600 (env : PosterEnv) (data : PosterRequest) :
    List.lookup "image_url" (generate_poster env data) = some (PyVal.vimg ⟨1200, 1600⟩) :=
  poster_lookup_image env data

/-- C4 (counterexample): on a 503-then-200 response sequence the SD-XL
adapter performs no retry and no backoff sleep: it makes exactly one
request, sleeps zero seconds, and signals failure instead of returning
the successful image after a 15-second backoff. -/
theorem c4_counterexample_no_retry :
    generate_with_sdxl_premium resp_503_then_200 = ⟨none, 1, 0⟩ ∧
    ¬((generate_with_sdxl_premium resp_503_then_200).result = some ⟨1024, 1024⟩ ∧
      (generate_with_sdxl_premium resp_503_then_200).sleepSeconds = 15) := by
  decide

/-- C4 (amended): the image adapters never retry a 503 and never sleep:
the SD-XL adapter issues exactly one request and signals failure on any
non-200 status, and the DALL-E-style adapter issues at most one request
per model of its fixed three-model list, also without sleeping. -/
theorem c4_adapters_single_attempt_no_backoff (responses : Nat → HttpResp) :
    generate_with_sdxl_premium responses =
      ⟨if (responses 0).status = 200 then (responses 0).body else none, 1, 0⟩ ∧
    (generate_with_dalle_style responses).sleepSeconds = 0 ∧
    (generate_with_dalle_style responses).requests ≤ 3 := by
  refine ⟨rfl, ?_, ?_⟩
  · exact (dalle_style_loop_trace responses 3 0).1
  · have h := (dalle_style_loop_trace responses 3 0).2
    simpa using h

/-- C5: every result of the email, poster and invitation pipelines carries
a non-empty `model_used` provenance tag, on every return path including
all fallback and exception paths. -/
theorem c5_model_used_always_present (hasClient : Bool) (textOutcome : Except Unit String)
    (edata : EmailRequest) (pick : Nat) (penv : PosterEnv) (pdata : PosterRequest)
    (ienv : InvitationEnv) (idata : InvitationRequest) :
    (∃ m, List.lookup "model_used" (generate_email_content hasClient textOutcome edata pick) =
      some (PyVal.vstr m) ∧ m ≠ "") ∧
    (∃ m, List.lookup "model_used" (generate_poster penv pdata) =
      some (PyVal.vstr m) ∧ m ≠ "") ∧
    (∃ m, List.lookup "model_used" (generate_invitation ienv idata) =
      some (PyVal.vstr m) ∧ m ≠ "") := by
  refine ⟨?_, ?_, invitation_lookup_model_used ienv idata⟩
  · cases hasClient with
    | false => exact ⟨"professional-fallback-template", rfl, by decide⟩
    | true =>
      cases textOutcome with
      | ok r => exact ⟨"llama-3.1-70b-professional", rfl, by decide⟩
      | error e => exact ⟨"professional-fallback-template", rfl, by decide⟩
  · rcases penv with ⟨s, d, r⟩
    cases r with
    | true => exact ⟨"ultimate-premium-fallback", rfl, by decide⟩
    | false =>
      cases s with
      | some img => exact ⟨"stable-diffusion-xl-premium", rfl, by decide⟩
      | none =>
        cases d with
        | some img => exact ⟨"dalle-style-premium", rfl, by decide⟩
        | none => exact ⟨"premium-template", rfl, by decide⟩

/-- C6: for every theme string and every event-type string the two poster
prompt builders return a non-empty prompt (the embedding is total, so no
exception can be raised), and a key missing from the tables selects the
default fragments: the professional theme fragment and the
"professional premium event" event fragment. -/
theorem c6_prompt_builders_nonempty_defaulted (data : PosterRequest) :
    build_premium_poster_prompt data ≠ "" ∧
    build_dalle3_poster_prompt data ≠ "" ∧
    (pyLower data.theme ∉ premium_theme_prompts.map Prod.fst →
      premium_theme_desc data.theme = premium_theme_professional) ∧
    (pyLower data.event_type ∉ premium_event_prompts.map Prod.fst →
      premium_event_desc data.event_type = "professional premium event") ∧
    (pyLower data.theme ∉ dalle3_theme_prompts.map Prod.fst →
      dalle3_theme_desc data.theme = dalle3_theme_professional) ∧
    (pyLower data.event_type ∉ dalle3_event_prompts.map Prod.fst →
      dalle3_event_desc data.event_type = "professional premium event") := by
  refine ⟨?_, ?_, ?_, ?_, ?_, ?_⟩
  · simp only [build_premium_poster_prompt]
    apply pyCollapseWs_ne_empty
    apply str_exists_nonws_right
    exact ⟨'a', by decide, by decide⟩
  · simp only [build_dalle3_poster_prompt]
    apply pyCollapseWs_ne_empty
    apply str_exists_nonws_right
    exact ⟨'a', by decide, by decide⟩
  · intro h; unfold premium_theme_desc; exact lookup_getD_of_not_mem h
  · intro h; unfold premium_event_desc; exact lookup_getD_of_not_mem h
  · intro h; unfold dalle3_theme_desc; exact lookup_getD_of_not_mem h
  · intro h; unfold dalle3_event_desc; exact lookup_getD_of_not_mem h

/-- C6 (witness): at the concrete unknown strings "neonpunk" and
"hackathon" the builders still produce a non-empty prompt and use the
default fragments. -/
theorem c6_witness :
    (pyLower "neonpunk" ∉ premium_theme_prompts.map Prod.fst) ∧
    premium_theme_desc "neonpunk" = premium_theme_professional ∧
    (pyLower "hackathon" ∉ premium_event_prompts.map Prod.fst) ∧
    premium_event_desc "hackathon" = "professional premium event" ∧
    build_premium_poster_prompt unknown_theme_poster ≠ "" := by
  have h := c6_prompt_builders_nonempty_defaulted unknown_theme_poster
  exact ⟨by decide, h.2.2.1 (by decide), by decide, h.2.2.2.1 (by decide), h.1⟩

/-- C7 (counterexample): in `_apply_premium_enhancements` a failing
contrast step does not merely skip itself: with tracing steps the chain
stops at the failure, which differs from the claimed behaviour in which
only that step is skipped and the remaining steps still run. -/
theorem c7_counterexample_chain_aborts :
    apply_premium_enhancements trace_ops false [] = ["resize", "detail", "unsharp1"] ∧
    apply_premium_enhancements trace_ops_contrast_skipped false [] =
      ["resize", "detail", "unsharp1", "color", "brightness", "sharpness", "tonemap",
       "unsharpFinal"] ∧
    apply_premium_enhancements trace_ops false [] ≠
      apply_premium_enhancements trace_ops_contrast_skipped false [] :=
  ⟨rfl, rfl, by decide⟩

/-- C7 (amended): when an enhancement step (here: contrast) raises, the
pipeline returns the image produced just before that step, but the
remaining steps of the chain are NOT applied — the single try/except of
`_apply_premium_enhancements` ends the chain there (only the tone-mapping
step guards itself internally). -/
theorem c7_failing_step_returns_prior_image {I : Type} (ops : EnhanceOps I) (crisp : Bool)
    (img i1 i2 i3 : I)
    (h1 : ops.resizeIfSmall img = Except.ok i1)
    (h2 : ops.detailFilter i1 = Except.ok i2)
    (h3 : ops.unsharp1 i2 = Except.ok i3)
    (h4 : ops.contrast i3 = Except.error ()) :
    apply_premium_enhancements ops crisp img = i3 := by
  simp only [apply_premium_enhancements, enhStep, h1, h2, h3, h4]

/-- C7 (witness): the amended theorem at the tracing fixture. -/
theorem c7_witness :
    apply_premium_enhancements trace_ops true ([] : List String) =
      ["resize", "detail", "unsharp1"] :=
  c7_failing_step_returns_prior_image trace_ops true [] ["resize"]
    ["resize", "detail"] ["resize", "detail", "unsharp1"] rfl rfl rfl rfl

/-- C8 (counterexample): a schema-valid invitation whose `rsvp_email` key
is present but holds the empty string still yields `qr_code_url = None`,
refuting "None exactly when rsvp_email is absent". -/
theorem c8_counterexample_empty_rsvp :
    empty_rsvp_invitation.rsvp_email = some "" ∧
    List.lookup "qr_code_url"
        (generate_invitation no_client_invitation_env empty_rsvp_invitation) =
      some PyVal.vnone :=
  ⟨rfl, rfl⟩

/-- C8 (amended): `qr_code_url` is None exactly when `rsvp_email` is
absent or empty (falsy); when `rsvp_email` is a non-empty string the QR
payload is a mailto action string containing both the event name and the
event date. -/
theorem c8_qr_payload_spec (env : InvitationEnv) (data : InvitationRequest) :
    (List.lookup "qr_code_url" (generate_invitation env data) = some PyVal.vnone ↔
      pyTruthyStr data.rsvp_email = false) ∧
    (pyTruthyStr data.rsvp_email = true →
      ∃ p, List.lookup "qr_code_url" (generate_invitation env data) = some (PyVal.vqr p) ∧
        (∃ a, p = "mailto:" ++ a) ∧
        (∃ a b, p = a ++ (data.event_name ++ b)) ∧
        (∃ a b, p = a ++ (data.date ++ b))) := by
  rw [invitation_lookup_qr]
  by_cases h : pyTruthyStr data.rsvp_email
  · rw [if_pos h]
    constructor
    · constructor
      · intro he; simp at he
      · intro hfalse; rw [h] at hfalse; exact absurd hfalse (by decide)
    · intro _
      refine ⟨qr_content data, rfl, ?_, ?_, ?_⟩
      · exact ⟨data.rsvp_email.getD "" ++ ("?subject=RSVP for " ++ (data.event_name ++
          ("&body=Dear Organizers,%0A%0AI am delighted to confirm my attendance for " ++
            (data.event_name ++ (" on " ++ (data.date ++ ".%0A%0AWith appreciation,")))))),
          by simp only [qr_content, str_append_assoc]⟩
      · exact ⟨"mailto:" ++ (data.rsvp_email.getD "" ++ "?subject=RSVP for "),
          "&body=Dear Organizers,%0A%0AI am delighted to confirm my attendance for " ++
            (data.event_name ++ (" on " ++ (data.date ++ ".%0A%0AWith appreciation,"))),
          by simp only [qr_content, str_append_assoc]⟩
      · exact ⟨"mailto:" ++ (data.rsvp_email.getD "" ++ ("?subject=RSVP for " ++
          (data.event_name ++
            ("&body=Dear Organizers,%0A%0AI am delighted to confirm my attendance for " ++
              (data.event_name ++ " on "))))),
          ".%0A%0AWith appreciation,",
          by simp only [qr_content, str_append_assoc]⟩
  · rw [if_neg h]
    constructor
    · exact ⟨fun _ => by simpa using h, fun _ => rfl⟩
    · intro htrue; exact absurd htrue h

/-- C8 (witness): the amended theorem at a request holding a non-empty
RSVP email. -/
theorem c8_witness :
    pyTruthyStr rsvp_invitation.rsvp_email = true ∧
    ∃ p, List.lookup "qr_code_url"
        (generate_invitation no_client_invitation_env rsvp_invitation) =
      some (PyVal.vqr p) ∧ (∃ a, p = "mailto:" ++ a) ∧
      (∃ a b, p = a ++ (rsvp_invitation.event_name ++ b)) ∧
      (∃ a b, p = a ++ (rsvp_invitation.date ++ b)) :=
  ⟨by decide, (c8_qr_payload_spec no_client_invitation_env rsvp_invitation).2 (by decide)⟩

/-- C9 (counterexample): on the template-fallback path (no client) the
returned body is the raw template text, which differs from its formatting
normalization — so the normalization is not applied on that path. -/
theorem c9_counterexample_fallback_unnormalized :
    List.lookup "body" (generate_email_content false (Except.ok "") tech_fest_email 0) =
      some (PyVal.vstr (professional_email_template tech_fest_email)) ∧
    enhance_email_formatting (professional_email_template tech_fest_email) ≠
      professional_email_template tech_fest_email :=
  ⟨rfl, by decide⟩

/-- C9 (amended): the formatting normalization is applied exactly on the
AI-provider parse path; the template fallback paths (missing client, or a
raising provider call) return the template body unnormalized. -/
theorem c9_normalization_only_on_parse_path (data : EmailRequest) (pick : Nat) (r : String) :
    List.lookup "body" (generate_email_content true (Except.ok r) data pick) =
      some (PyVal.vstr (enhance_email_formatting (parsed_email_body_pre r data))) ∧
    List.lookup "body" (generate_email_content false (Except.ok r) data pick) =
      some (PyVal.vstr (professional_email_template data)) ∧
    List.lookup "body" (generate_email_content true (Except.error ()) data pick) =
      some (PyVal.vstr (professional_email_template data)) :=
  ⟨rfl, rfl, rfl⟩

/-- C10: the effective (later-defined) `generate_poster` reports exactly
one of four provenance tags and never a DALL-E-3 tag; the earlier,
shadowed definition would report "dall-e-3-premium" whenever its first
provider succeeds. -/
theorem c10_model_used_four_tags (env : PosterEnv) (data : PosterRequest) :
    List.lookup "model_used" (generate_poster env data) ∈
      [some (PyVal.vstr "stable-diffusion-xl-premium"),
       some (PyVal.vstr "dalle-style-premium"),
       some (PyVal.vstr "premium-template"),
       some (PyVal.vstr "ultimate-premium-fallback")] ∧
    List.lookup "model_used" (generate_poster env data) ≠
      some (PyVal.vstr "dall-e-3-premium") ∧
    List.lookup "model_used" (generate_poster_shadowed ⟨some ⟨1024, 1024⟩, none, false⟩ data) =
      some (PyVal.vstr "dall-e-3-premium") := by
  rw [poster_lookup_model_used]
  rcases env with ⟨s, d, r⟩
  refine ⟨?_, ?_, rfl⟩
  · cases r
    · cases s
      · cases d <;> simp
      · simp
    · simp
  · cases r
    · cases s
      · cases d <;> simp
      · simp
    · simp
